import Mathlib

/-!
# Verification of `vm-remote-control` (src/src/VMRemoteControlProvider.ts)

A shallow embedding, in Lean 4, of the parts of the VM remote-control
provider that the specification's testable properties talk about:

* the SPICE driver's absolute/relative mouse handling and coordinate
  scaling (`SpiceVirshDriver.sendInput`, lines 920–969);
* the session engine's status state machine, frame loop and `close`
  (`VMRemoteControlSessionImpl`, lines 1067–1189);
* the read-only gate on `sendInput`/`setClipboard` (lines 1155–1174);
* the driver factory and the unsupported-backend driver
  (`VMRemoteControlProvider.createDriver`, lines 1314–1373, and
  `UnsupportedBackendDriver`, lines 1031–1065);
* OCR line aggregation (`runTesseract`, lines 296–362);
* vision-plan parsing with its JSON-salvage fallback
  (`extractJsonFromText` / `normalizeInputEvent` / `parseVisionPlan`,
  lines 65–158).

JavaScript numbers are modelled by `ℚ` (every arithmetic operation the
embedded code performs is exact on the values it is applied to),
`Math.round` by round-half-up on rationals, `undefined` and `NaN`
confidences by `Option ℚ`, and promise rejection by `Except String`.
-/

namespace VMRC

/-- JavaScript `Math.round`: round half-up, i.e. `⌊q + 1/2⌋`. -/
def jsRound (q : ℚ) : ℤ := ⌊q + 1/2⌋

/-- ASCII whitespace, the class relevant to the strings the provider
handles (JS `\s` and `String.prototype.trim` also cover further Unicode
whitespace, which no input here contains). -/
def isWsChar (c : Char) : Bool :=
  c = ' ' || c = '\t' || c = '\n' || c = '\r'

/-- Drop leading whitespace from a character list. -/
def skipWsChars : List Char → List Char
  | [] => []
  | c :: t => if isWsChar c then skipWsChars t else c :: t

/-- JavaScript `String.prototype.trim`: drop leading and trailing
whitespace. -/
def jsTrim (s : String) : String :=
  String.mk (skipWsChars (skipWsChars s.data.reverse).reverse)

/-- Absolute mouse-coordinate scaling, one axis, from
`SpiceVirshDriver.sendInput`, lines 924–926:
`Math.max(0, Math.min(max, Math.round((coord / dimension) * max)))`
with `max = 65535`. -/
def scaleAbsCoord (logical dim : ℚ) : ℤ :=
  max 0 (min 65535 (jsRound (logical / dim * 65535)))

/-- Viewport dimensions (JS numbers), `types.ts` lines 81–84. -/
structure ViewportQ where
  width : ℚ
  height : ℚ
deriving DecidableEq, Repr

/-- Mutable per-driver state of `SpiceVirshDriver`
(fields `mouseX`, `mouseY`, `mouseMask`, `viewport`, lines 674–677). -/
structure SpiceState where
  mouseX : ℚ
  mouseY : ℚ
  mouseMask : ℕ
  viewport : ViewportQ
deriving DecidableEq, Repr

/-- External commands the SPICE driver issues for mouse events:
QMP absolute-axis events, HMP relative moves, QMP button events and HMP
button-mask updates. -/
inductive SpiceCmd where
  | qmpAbs (axis : String) (value : ℤ)
  | hmpMouseMove (dx dy : ℤ)
  | qmpBtn (button : String) (down : Bool)
  | hmpMouseButton (mask : ℕ)
deriving DecidableEq, Repr

/-- Mouse buttons, from the `InputEvent` union in `types.ts` line 168. -/
inductive MouseButton where
  | left | middle | right
deriving DecidableEq, Repr

/-- Key/button actions, `types.ts` line 162. -/
inductive KeyAction where
  | down | up
deriving DecidableEq, Repr

/-- QMP button name, line 952:
`event.button === 'left' ? 'left' : event.button === 'right' ? 'right' : 'middle'`. -/
def qmpButtonName : MouseButton → String
  | .left => "left"
  | .right => "right"
  | .middle => "middle"

/-- HMP button-mask bit, line 959:
`event.button === 'left' ? 1 : event.button === 'right' ? 2 : 4`. -/
def hmpButtonBit : MouseButton → ℕ
  | .left => 1
  | .right => 2
  | .middle => 4

/-- The `mouse-move` case of `SpiceVirshDriver.sendInput` (lines 920–941).
Absolute mode stores the logical coordinates and sends per-axis scaled
absolute events computed against the viewport current at the time of the
call; relative mode sends the rounded delta from the retained cursor
position and stores the logical coordinates. -/
def spiceMouseMove (absoluteMouse : Bool) (s : SpiceState) (x y : ℚ) :
    SpiceState × List SpiceCmd :=
  if absoluteMouse then
    ({ s with mouseX := x, mouseY := y },
     [SpiceCmd.qmpAbs "x" (scaleAbsCoord x s.viewport.width),
      SpiceCmd.qmpAbs "y" (scaleAbsCoord y s.viewport.height)])
  else
    let dx := jsRound (x - s.mouseX)
    let dy := jsRound (y - s.mouseY)
    ({ s with mouseX := x, mouseY := y }, [SpiceCmd.hmpMouseMove dx dy])

/-- JavaScript `mask &= ~bit` on 32-bit integer operands with
`bit < 2^32`: clear the bit, i.e. bitwise-and with the one's complement
of `bit` within 32 bits. -/
def clearBit (mask bit : ℕ) : ℕ := Nat.land mask (4294967295 - bit)

/-- The `mouse-button` case of `SpiceVirshDriver.sendInput` (lines 943–969).
When both `x` and `y` are numbers the driver first re-enters `sendInput`
with a `mouse-move` event at `(x, y)` (line 945); then absolute mode sends
one QMP button event, while relative mode updates the retained button mask
and sends it over HMP. -/
def spiceMouseButton (absoluteMouse : Bool) (s : SpiceState)
    (button : MouseButton) (action : KeyAction) (x y : Option ℚ) :
    SpiceState × List SpiceCmd :=
  let moved : SpiceState × List SpiceCmd :=
    match x, y with
    | some xv, some yv => spiceMouseMove absoluteMouse s xv yv
    | _, _ => (s, [])
  let s1 := moved.1
  if absoluteMouse then
    (s1, moved.2 ++ [SpiceCmd.qmpBtn (qmpButtonName button) (action = KeyAction.down)])
  else
    let bit := hmpButtonBit button
    let newMask :=
      match action with
      | .down => Nat.lor s1.mouseMask bit
      | .up => clearBit s1.mouseMask bit
    ({ s1 with mouseMask := newMask }, moved.2 ++ [SpiceCmd.hmpMouseButton newMask])

/-! ## Session lifecycle (`VMRemoteControlSessionImpl`, lines 1067–1189) -/

/-- Session status enum, `types.ts` line 175. -/
inductive Status where
  | connecting | connected | disconnected | error
deriving DecidableEq, Repr

/-- The operations the provider performs on a session's lifecycle:
`start` resolving (driver `connect` succeeded), `start` rejecting
(driver `connect` failed), and `close`. -/
inductive SessionOp where
  | startOk | startFail | closeOp
deriving DecidableEq, Repr

/-- The status assignment each operation performs (`start`, lines
1088–1101; `close`, lines 1180–1188). None of them consults the previous
status: `start` sets `connected` on success and `error` on failure,
`close` sets `disconnected`. -/
def stepStatus : Status → SessionOp → Status
  | _, .startOk => .connected
  | _, .startFail => .error
  | _, .closeOp => .disconnected

/-- The sequence of values the `status` field takes along a trace of
operations, starting from the initial `connecting` (line 1068). -/
def statusSeq (ops : List SessionOp) : List Status :=
  ops.scanl stepStatus Status.connecting

/-- Provider orchestration (`startSession`, lines 1257–1290; `endSession`,
lines 1292–1297): `start` is invoked exactly once, immediately after
construction; when it fails the status listener removes the session from
the registry before `startSession` rethrows, and the caller never receives
the session object, so `close` is only ever reached — any number of times —
on a session whose `start` succeeded. -/
def ValidTrace (ops : List SessionOp) : Prop :=
  (∃ n, ops = SessionOp.startOk :: List.replicate n SessionOp.closeOp) ∨
  ops = [SessionOp.startFail]

/-- Events a session emits to its host, plus the warning log the frame
loop produces on a failed capture (lines 1093, 1097, 1110, 1112, 1187). -/
inductive SessionEvent where
  | statusEv (s : Status)
  | frameEv (width height : ℚ)
  | warnLog
deriving DecidableEq, Repr

/-- The state of `VMRemoteControlSessionImpl` relevant to the lifecycle
and frame loop: the current status, whether `frameTimer` is set
(lines 1068–1069), and the session's recorded viewport (line 1077). -/
structure EngineState where
  status : Status
  timerActive : Bool
  viewport : ViewportQ
deriving DecidableEq, Repr

/-- `close()` (lines 1180–1188): clear the frame timer if it is set,
await `driver.disconnect()` (whose rejection would propagate), set the
status to `disconnected` and emit a status event. Returns the new state,
the emitted events, and whether this call cleared a timer. -/
def closeSession (s : EngineState) (disconnectResult : Except String Unit) :
    Except String (EngineState × List SessionEvent × Bool) :=
  let cleared := s.timerActive
  match disconnectResult with
  | .error e => .error e
  | .ok _ =>
    .ok ({ s with timerActive := false, status := Status.disconnected },
         [SessionEvent.statusEv Status.disconnected], cleared)

/-- Two consecutive `close()` calls, threading the state and concatenating
the emitted events. -/
def closeTwice (s : EngineState) (d1 d2 : Except String Unit) :
    Except String (EngineState × List SessionEvent) :=
  match closeSession s d1 with
  | .error e => .error e
  | .ok (s1, ev1, _) =>
    match closeSession s1 d2 with
    | .error e => .error e
    | .ok (s2, ev2, _) => .ok (s2, ev1 ++ ev2)

/-- `snapshot()` (lines 1117–1123): capture a frame through the driver —
a rejection propagates to the caller — then adopt the driver-reported
frame dimensions whenever they differ from the recorded viewport. The
frame is modelled by its dimensions, the only part the engine inspects. -/
def snapshotStep (s : EngineState) (captureResult : Except String ViewportQ) :
    Except String (EngineState × ViewportQ) :=
  match captureResult with
  | .error e => .error e
  | .ok frame =>
    if frame.width ≠ s.viewport.width ∨ frame.height ≠ s.viewport.height then
      .ok ({ s with viewport := frame }, frame)
    else
      .ok (s, frame)

/-- One tick of the frame loop (lines 1107–1114): try `snapshot()` and
emit the frame on success; on failure log a warning — the exception is
swallowed inside the tick and the session state is left untouched, so the
interval timer keeps firing. -/
def loopTick (s : EngineState) (captureResult : Except String ViewportQ) :
    EngineState × List SessionEvent :=
  match snapshotStep s captureResult with
  | .ok (s1, frame) => (s1, [SessionEvent.frameEv frame.width frame.height])
  | .error _ => (s, [SessionEvent.warnLog])

/-- Run the frame loop over a sequence of capture outcomes, threading the
state and accumulating the emitted events. -/
def runTicks : EngineState → List (Except String ViewportQ) →
    EngineState × List SessionEvent
  | s, [] => (s, [])
  | s, c :: rest =>
    let t := loopTick s c
    let r := runTicks t.1 rest
    (r.1, t.2 ++ r.2)

/-! ## Input events (`types.ts` lines 162–170) -/

/-- The `InputEvent` tagged union. Optional numeric fields are `Option ℚ`. -/
inductive InputEvent where
  | keyEv (key : String) (action : KeyAction) (modifiers : Option (List String))
  | textEv (text : String)
  | mouseMove (x y : ℚ)
  | mouseButtonEv (button : MouseButton) (action : KeyAction) (x y : Option ℚ)
  | mouseScroll (deltaX deltaY : Option ℚ)
  | clipboardEv (text : String)
deriving DecidableEq, Repr

/-- A call a session forwards to its backend driver. -/
inductive DriverCall where
  | sendInputCall (e : InputEvent)
  | setClipboardCall (text : String)
deriving DecidableEq, Repr

/-- `VMRemoteControlSessionImpl.sendInput` (lines 1155–1161): a read-only
session logs a warning and resolves without touching the driver; otherwise
the event is forwarded and the driver's outcome is returned. The result is
the list of driver calls made and the returned promise outcome. -/
def sessionSendInput (readOnly : Bool) (driverResult : Except String Unit)
    (e : InputEvent) : List DriverCall × Except String Unit :=
  if readOnly then ([], .ok ())
  else ([DriverCall.sendInputCall e], driverResult)

/-- `VMRemoteControlSessionImpl.setClipboard` (lines 1168–1174), the same
read-only gate for clipboard updates. -/
def sessionSetClipboard (readOnly : Bool) (driverResult : Except String Unit)
    (text : String) : List DriverCall × Except String Unit :=
  if readOnly then ([], .ok ())
  else ([DriverCall.setClipboardCall text], driverResult)

/-! ## Driver factory (`createDriver`, lines 1314–1373) and the
unsupported-backend driver (lines 1031–1065) -/

/-- The configuration fields `createDriver` consults
(`VMRemoteControlOptions`, `types.ts` lines 5–51). -/
structure FactoryOpts where
  spiceDomain : Option String := none
  mockWidth : Option ℚ := none
  mockHeight : Option ℚ := none
  mockLabel : Option String := none
  customLabel : Option String := none
  vncHost : Option String := none
  vncPort : Option ℤ := none

/-- The driver variant `createDriver` constructs. -/
inductive DriverKind where
  | mockDriver (backend : String) (label : Option String) (viewport : ViewportQ)
  | vncDriver (host : String) (port : ℤ)
  | spiceDriver (domain : String)
  | unsupportedDriver (backend : String)
deriving DecidableEq, Repr

/-- The backend kinds the `switch` in `createDriver` recognises
(lines 1316–1321); backends are JS strings, so the value is not confined
to the `VMBackend` union at runtime. -/
def knownBackend (b : String) : Bool :=
  b = "mock" || b = "custom" || b = "vnc" || b = "rdp" || b = "spice" || b = "webrtc"

/-- `createDriver` (lines 1314–1373): all six recognised kinds share one
`case` group; inside it `mock` builds the mock driver with the mock
viewport override, `spice` requires a domain (`label ?? spice.domain`,
throwing a config error when absent), `vnc` builds the VNC driver with
host/port defaults, and the remaining recognised kinds (`custom`, `rdp`,
`webrtc`) fall through to a mock driver; only an unrecognised kind reaches
the `default` branch and gets `UnsupportedBackendDriver`. -/
def createDriver (opts : FactoryOpts) (backend : String) (label : Option String)
    (viewport : ViewportQ) : Except String DriverKind :=
  if knownBackend backend then
    if backend = "mock" then
      .ok (.mockDriver backend (label <|> opts.mockLabel)
        ⟨(opts.mockWidth.getD viewport.width), (opts.mockHeight.getD viewport.height)⟩)
    else if backend = "spice" then
      match label <|> opts.spiceDomain with
      | none => .error "SPICE backend requires a domain name (label or spice.domain)"
      | some d => .ok (.spiceDriver d)
    else if backend = "vnc" then
      .ok (.vncDriver (opts.vncHost.getD "127.0.0.1") (opts.vncPort.getD 5901))
    else
      .ok (.mockDriver backend (label <|> opts.customLabel) viewport)
  else
    .ok (.unsupportedDriver backend)

/-- The seven methods of the `BackendDriver` contract (lines 435–443). -/
inductive DriverOp where
  | connectOp | disconnectOp | captureOp | sendInputOp
  | setClipboardOp | setViewportOp | healthCheckOp
deriving DecidableEq, Repr

/-- The error message thrown by `UnsupportedBackendDriver.unsupported()`
(line 1035). -/
def unsupportedMsg (backend : String) : String :=
  "Backend " ++ backend ++ " not implemented yet"

/-- `UnsupportedBackendDriver` (lines 1031–1065): every one of the seven
contract methods calls `unsupported()` and therefore rejects immediately
with the same message. -/
def unsupportedDriverRun (backend : String) (_op : DriverOp) : Except String Unit :=
  .error (unsupportedMsg backend)

/-- A driver's `connect()` outcome: the mock driver (lines 454–459) and
the VNC driver (lines 513–515) only log and always resolve; the SPICE
driver (lines 834–838) runs external `virsh` commands whose success is an
environment parameter; the unsupported driver rejects with its message. -/
def connectResult (d : DriverKind) (spiceConnectOk : Bool) : Except String Unit :=
  match d with
  | .mockDriver _ _ _ => .ok ()
  | .vncDriver _ _ => .ok ()
  | .spiceDriver _ => if spiceConnectOk then .ok () else .error "virsh connect failed"
  | .unsupportedDriver b => .error (unsupportedMsg b)

/-- The observable outcome of `startSession` (lines 1257–1290) composed
with `start` (lines 1088–1101): final status, emitted status events,
whether the frame loop was started (frames are only emitted from the
loop, line 1110), and the rethrown connect error if any. -/
structure StartView where
  status : Status
  statusEvents : List Status
  frameLoopStarted : Bool
  thrown : Option String
deriving DecidableEq, Repr

/-- `startSession`: driver construction may throw a config error (outer
`.error`, no session events at all); otherwise the driver's `connect`
outcome determines the view: success sets `connected`, emits it and starts
the frame loop; failure sets `error`, emits it, and the error is rethrown
to the caller. -/
def startSessionModel (opts : FactoryOpts) (backend : String)
    (label : Option String) (viewport : ViewportQ) (spiceConnectOk : Bool) :
    Except String StartView :=
  match createDriver opts backend label viewport with
  | .error e => .error e
  | .ok d =>
    match connectResult d spiceConnectOk with
    | .ok _ => .ok ⟨Status.connected, [Status.connected], true, none⟩
    | .error e => .ok ⟨Status.error, [Status.error], false, some e⟩

/-! ## OCR aggregation (`runTesseract`, lines 296–362) -/

/-- A bounding box (`bbox` objects built on lines 320 and 335). -/
structure BBox where
  x : ℤ
  y : ℤ
  width : ℤ
  height : ℤ
deriving DecidableEq, Repr

/-- An `OCRLine` record (`types.ts` lines 104–111). A confidence of
`none` models the `undefined` stored when the TSV confidence was `NaN`. -/
structure OCRLineM where
  text : String
  bbox : BBox
  confidence : Option ℚ
  block : ℤ
  paragraph : ℤ
  lineNum : ℤ
deriving DecidableEq, Repr

/-- An `OCRWord` record (`types.ts` lines 94–102). -/
structure OCRWordM where
  text : String
  bbox : BBox
  confidence : Option ℚ
  block : ℤ
  paragraph : ℤ
  lineNum : ℤ
  wordNum : ℤ
deriving DecidableEq, Repr

/-- One parsed TSV row (fields read on lines 303–313). `confidence` is
`none` when `Number(parts[10])` was `NaN`. -/
structure TsvRow where
  level : ℤ
  block : ℤ
  paragraph : ℤ
  lineNum : ℤ
  wordNum : ℤ
  left : ℤ
  top : ℤ
  width : ℤ
  height : ℤ
  confidence : Option ℚ
  text : String
deriving DecidableEq, Repr

/-- Seeding a new line record from the first row seen for its key
(lines 333–340). -/
def seedLine (r : TsvRow) : OCRLineM :=
  { text := r.text
    bbox := ⟨r.left, r.top, r.width, r.height⟩
    confidence := r.confidence
    block := r.block
    paragraph := r.paragraph
    lineNum := r.lineNum }

/-- Merging a word-level row into an existing line record (lines 342–351):
append the text single-space separated (the JS template literal plus
`.trim()`), extend the bounding box to the union of the two boxes, and,
when both confidences are defined, replace the line confidence by the
plain average of the two. -/
def mergeWordRow (existing : OCRLineM) (r : TsvRow) : OCRLineM :=
  let newText := jsTrim (existing.text ++ " " ++ r.text)
  let right := max (existing.bbox.x + existing.bbox.width) (r.left + r.width)
  let bottom := max (existing.bbox.y + existing.bbox.height) (r.top + r.height)
  let nx := min existing.bbox.x r.left
  let ny := min existing.bbox.y r.top
  let newConf : Option ℚ :=
    match existing.confidence, r.confidence with
    | some a, some b => some ((a + b) / 2)
    | c, _ => c
  { existing with
      text := newText
      bbox := ⟨nx, ny, right - nx, bottom - ny⟩
      confidence := newConf }

/-- The word list and the insertion-ordered line map built by the row
scan. -/
structure OCRAccum where
  words : List OCRWordM
  lineMap : List ((ℤ × ℤ × ℤ) × OCRLineM)
deriving DecidableEq, Repr

/-- Lookup in the insertion-ordered line map (`lineMap.get(key)`). -/
def lookupLine (m : List ((ℤ × ℤ × ℤ) × OCRLineM)) (k : ℤ × ℤ × ℤ) :
    Option OCRLineM :=
  (m.find? (fun p => p.1 = k)).map (fun p => p.2)

/-- In-place update of the line map entry for `k` (`lineMap.set` on an
existing key keeps the insertion position). -/
def updateLine (m : List ((ℤ × ℤ × ℤ) × OCRLineM)) (k : ℤ × ℤ × ℤ)
    (v : OCRLineM) : List ((ℤ × ℤ × ℤ) × OCRLineM) :=
  m.map (fun p => if p.1 = k then (k, v) else p)

/-- The per-row body of the scan loop (lines 299–354), starting from the
parsed row: rows with empty text are skipped (line 315); a level-5 row
appends an `OCRWord` (lines 317–327); for levels 4 and 5 the line map is
consulted under the `(block, paragraph, line)` key — the first row for a
key seeds the line, and a later level-5 row merges into it
(lines 329–353). -/
def processRow (acc : OCRAccum) (r : TsvRow) : OCRAccum :=
  if r.text = "" then acc
  else
    let acc1 :=
      if r.level = 5 then
        { acc with words := acc.words ++
            [{ text := r.text
               bbox := ⟨r.left, r.top, r.width, r.height⟩
               confidence := r.confidence
               block := r.block
               paragraph := r.paragraph
               lineNum := r.lineNum
               wordNum := r.wordNum }] }
      else acc
    if r.level = 4 ∨ r.level = 5 then
      let k := (r.block, r.paragraph, r.lineNum)
      match lookupLine acc1.lineMap k with
      | none => { acc1 with lineMap := acc1.lineMap ++ [(k, seedLine r)] }
      | some existing =>
        if r.level = 5 then
          { acc1 with lineMap := updateLine acc1.lineMap k (mergeWordRow existing r) }
        else acc1
    else acc1

/-- The whole row scan. -/
def processRows (rows : List TsvRow) : OCRAccum :=
  rows.foldl processRow ⟨[], []⟩

/-- The pairwise running average the merge applies to confidences:
fold each new confidence in by averaging it with the current value. -/
def runningAvg (c0 : ℚ) (cs : List ℚ) : ℚ :=
  cs.foldl (fun a b => (a + b) / 2) c0

/-! ## Vision-plan parsing (lines 65–158)

The parser works on JS strings; the embedding works on `List Char`. The
opening and closing curly-brace characters are written via their code
points throughout. -/

/-- The character U+007B (opening curly brace). -/
def lbrace : Char := Char.ofNat 123

/-- The character U+007D (closing curly brace). -/
def rbrace : Char := Char.ofNat 125

/-- Case-insensitive ASCII match of `pat` at the head of `cs`; on success
returns the remainder. -/
def matchCI : List Char → List Char → Option (List Char)
  | [], cs => some cs
  | _ :: _, [] => none
  | p :: ps, c :: cs => if p.toLower = c.toLower then matchCI ps cs else none

/-- Find the first (leftmost) case-insensitive occurrence of `pat`;
returns the remainder after it. -/
def findAfterCI (pat : List Char) : List Char → Option (List Char)
  | [] => matchCI pat []
  | c :: t =>
    match matchCI pat (c :: t) with
    | some rest => some rest
    | none => findAfterCI pat t

/-- Split at the first occurrence of `pat`: the characters before it and
the remainder after it. -/
def upToPat (pat : List Char) : List Char → Option (List Char × List Char)
  | [] => if pat = [] then some ([], []) else none
  | c :: t =>
    match matchCI pat (c :: t) with
    | some rest => some ([], rest)
    | none => (upToPat pat t).map (fun p => (c :: p.1, p.2))

/-- Split at the first occurrence of the character `stop`. -/
def upToChar (stop : Char) : List Char → Option (List Char × List Char)
  | [] => none
  | c :: t =>
    if c = stop then some ([], t)
    else (upToChar stop t).map (fun p => (c :: p.1, p.2))

/-- The `else` branch of `extractJsonFromText` (lines 68–72): the
substring from the first opening brace to the last closing brace,
trimmed, provided the latter comes strictly after the former. -/
def fallbackBrace (text : String) : Option String :=
  let cs := text.data
  match cs.findIdx? (fun c => c = lbrace), cs.reverse.findIdx? (fun c => c = rbrace) with
  | some i, some jr =>
    let j := cs.length - 1 - jr
    if i < j then some (jsTrim (String.mk ((cs.drop i).take (j - i + 1))))
    else none
  | _, _ => none

/-- `extractJsonFromText` (lines 65–74): prefer the body of a fenced JSON
block — the regex "triple-backtick json \s*([\s\S]+?) triple-backtick", flag i —
whose lazy body must be non-empty; the leading `\s*` is absorbed by the
`.trim()` applied to the capture — else fall back to the first-brace /
last-brace substring. Inputs with several fence markers of which only a
later one closes are not modelled (the fallback is taken instead). -/
def extractJsonFromText (text : String) : Option String :=
  match findAfterCI ("```json").data text.data with
  | some afterMarker =>
    match upToPat ("```").data afterMarker with
    | some (body, _) =>
      if body = [] then fallbackBrace text
      else some (jsTrim (String.mk body))
    | none => fallbackBrace text
  | none => fallbackBrace text

/-- JSON values, the result type of the modelled `JSON.parse`. Objects
keep their fields in source order. -/
inductive JsonValue where
  | null
  | bool (b : Bool)
  | num (q : ℚ)
  | str (s : String)
  | arr (elems : List JsonValue)
  | obj (fields : List (String × JsonValue))

/-- Parse a JSON string body after its opening quote, handling the
single-character escapes. The `\uXXXX` escape is not modelled (no input
considered here contains it); encountering it fails the parse. -/
def parseJsonString : List Char → Option (String × List Char)
  | [] => none
  | c :: rest =>
    if c = '"' then some ("", rest)
    else if c = '\\' then
      match rest with
      | [] => none
      | e :: rest2 =>
        let esc : Option Char :=
          if e = '"' then some '"'
          else if e = '\\' then some '\\'
          else if e = '/' then some '/'
          else if e = 'n' then some '\n'
          else if e = 't' then some '\t'
          else if e = 'r' then some '\r'
          else if e = 'b' then some (Char.ofNat 8)
          else if e = 'f' then some (Char.ofNat 12)
          else none
        match esc with
        | none => none
        | some ch => (parseJsonString rest2).map (fun p => (String.mk (ch :: p.1.data), p.2))
    else (parseJsonString rest).map (fun p => (String.mk (c :: p.1.data), p.2))

/-- Consume a run of decimal digits, accumulating their value. -/
def digitsVal (acc : ℕ) : List Char → ℕ × List Char
  | [] => (acc, [])
  | c :: t =>
    if c.isDigit then digitsVal (acc * 10 + (c.toNat - 48)) t
    else (acc, c :: t)

/-- Parse a JSON number: optional minus, integer part, optional fraction.
Exponents are not modelled (no input considered here contains one);
encountering one fails the parse of whatever follows. -/
def parseJsonNumber (cs : List Char) : Option (ℚ × List Char) :=
  let signSplit : Bool × List Char :=
    match cs with
    | '-' :: r => (true, r)
    | _ => (false, cs)
  match signSplit.2 with
  | [] => none
  | c :: _ =>
    if c.isDigit then
      let ip := digitsVal 0 signSplit.2
      let withFrac : ℚ × List Char :=
        match ip.2 with
        | '.' :: d :: r =>
          if d.isDigit then
            let fp := digitsVal 0 (d :: r)
            let fdigits := (d :: r).length - fp.2.length
            ((ip.1 : ℚ) + (fp.1 : ℚ) / ((10 : ℚ) ^ fdigits), fp.2)
          else ((ip.1 : ℚ), ip.2)
        | _ => ((ip.1 : ℚ), ip.2)
      some (if signSplit.1 then -withFrac.1 else withFrac.1, withFrac.2)
    else none

mutual

/-- Parse one JSON value (model of the grammar `JSON.parse` accepts, on
the subset exercised by the provider: the `\uXXXX` escape, exponents and
the leading-zero restriction are not modelled). Fuel decreases on every
recursive call; `jsonParse` supplies more fuel than any input can use. -/
def parseJsonValue : ℕ → List Char → Option (JsonValue × List Char)
  | 0, _ => none
  | Nat.succ fuel, cs =>
    match skipWsChars cs with
    | [] => none
    | c :: rest =>
      if c = '"' then
        (parseJsonString rest).map (fun p => (JsonValue.str p.1, p.2))
      else if c = lbrace then
        match skipWsChars rest with
        | [] => none
        | c2 :: rest2 =>
          if c2 = rbrace then some (JsonValue.obj [], rest2)
          else parseJsonMembers fuel [] (c2 :: rest2)
      else if c = '[' then
        match skipWsChars rest with
        | [] => none
        | c2 :: rest2 =>
          if c2 = ']' then some (JsonValue.arr [], rest2)
          else parseJsonElems fuel [] (c2 :: rest2)
      else if (c :: rest).take 4 = "true".data then
        some (JsonValue.bool true, (c :: rest).drop 4)
      else if (c :: rest).take 5 = "false".data then
        some (JsonValue.bool false, (c :: rest).drop 5)
      else if (c :: rest).take 4 = "null".data then
        some (JsonValue.null, (c :: rest).drop 4)
      else
        (parseJsonNumber (c :: rest)).map (fun p => (JsonValue.num p.1, p.2))

/-- Parse the members of a JSON object after its opening brace, first
member pending. -/
def parseJsonMembers : ℕ → List (String × JsonValue) → List Char →
    Option (JsonValue × List Char)
  | 0, _, _ => none
  | Nat.succ fuel, acc, cs =>
    match skipWsChars cs with
    | [] => none
    | c :: rest =>
      if c = '"' then
        match parseJsonString rest with
        | none => none
        | some (key, r1) =>
          match skipWsChars r1 with
          | ':' :: r2 =>
            match parseJsonValue fuel r2 with
            | none => none
            | some (v, r3) =>
              match skipWsChars r3 with
              | [] => none
              | c4 :: r4 =>
                if c4 = ',' then parseJsonMembers fuel (acc ++ [(key, v)]) r4
                else if c4 = rbrace then some (JsonValue.obj (acc ++ [(key, v)]), r4)
                else none
          | _ => none
      else none

/-- Parse the elements of a JSON array after its opening bracket, first
element pending. -/
def parseJsonElems : ℕ → List JsonValue → List Char →
    Option (JsonValue × List Char)
  | 0, _, _ => none
  | Nat.succ fuel, acc, cs =>
    match parseJsonValue fuel cs with
    | none => none
    | some (v, r1) =>
      match skipWsChars r1 with
      | [] => none
      | c2 :: r2 =>
        if c2 = ',' then parseJsonElems fuel (acc ++ [v]) r2
        else if c2 = ']' then some (JsonValue.arr (acc ++ [v]), r2)
        else none

end

/-- Model of the JavaScript builtin `JSON.parse` as used on line 122:
parse one value and require only trailing whitespace after it. -/
def jsonParse (s : String) : Option JsonValue :=
  match parseJsonValue (s.length + 2) s.data with
  | some (v, rest) => if skipWsChars rest = [] then some v else none
  | none => none

/-- JS property access on a parsed JSON object (duplicate keys: the last
occurrence wins, as in `JSON.parse`). -/
def getField (v : JsonValue) (key : String) : Option JsonValue :=
  match v with
  | JsonValue.obj fields => (fields.reverse.find? (fun p => p.1 = key)).map (fun p => p.2)
  | _ => none

/-- Coerce a field lookup to a number, `none` for any non-number. -/
def asNum : Option JsonValue → Option ℚ
  | some (JsonValue.num q) => some q
  | _ => none

/-- Coerce a field lookup to a string, `none` for any non-string. -/
def asStr : Option JsonValue → Option String
  | some (JsonValue.str s) => some s
  | _ => none

/-- JS `String(x)` on JSON values, used for the `modifiers` coercion on
line 82. Number formatting is modelled for integers (the only values the
provider feeds it); array coercion is not modelled. -/
def jsStringOf : JsonValue → String
  | JsonValue.null => "null"
  | JsonValue.bool true => "true"
  | JsonValue.bool false => "false"
  | JsonValue.str s => s
  | JsonValue.num q => toString q.num
  | JsonValue.arr _ => ""
  | JsonValue.obj _ => "[object Object]"

/-- The `modifiers` coercion of line 82:
`Array.isArray(event.modifiers) ? event.modifiers.map(String) : undefined`. -/
def modifiersOf (v : JsonValue) : Option (List String) :=
  match getField v "modifiers" with
  | some (JsonValue.arr xs) => some (xs.map jsStringOf)
  | _ => none

/-- `normalizeInputEvent` (lines 76–116): validate one candidate action
against the `InputEvent` schema, returning `none` for anything
unrecognised or malformed. -/
def normalizeInputEvent (v : JsonValue) : Option InputEvent :=
  match asStr (getField v "type") with
  | some "key" =>
    match asStr (getField v "key"), asStr (getField v "action") with
    | some k, some "down" => some (InputEvent.keyEv k KeyAction.down (modifiersOf v))
    | some k, some "up" => some (InputEvent.keyEv k KeyAction.up (modifiersOf v))
    | _, _ => none
  | some "text" =>
    match asStr (getField v "text") with
    | some t => some (InputEvent.textEv t)
    | none => none
  | some "mouse-move" =>
    match asNum (getField v "x"), asNum (getField v "y") with
    | some xv, some yv => some (InputEvent.mouseMove xv yv)
    | _, _ => none
  | some "mouse-button" =>
    let button : Option MouseButton :=
      match asStr (getField v "button") with
      | some "left" => some MouseButton.left
      | some "middle" => some MouseButton.middle
      | some "right" => some MouseButton.right
      | _ => none
    let action : Option KeyAction :=
      match asStr (getField v "action") with
      | some "down" => some KeyAction.down
      | some "up" => some KeyAction.up
      | _ => none
    match button, action with
    | some b, some a =>
      some (InputEvent.mouseButtonEv b a (asNum (getField v "x")) (asNum (getField v "y")))
    | _, _ => none
  | some "mouse-scroll" =>
    match asNum (getField v "deltaX"), asNum (getField v "deltaY") with
    | none, none => none
    | dx, dy => some (InputEvent.mouseScroll dx dy)
  | some "clipboard" =>
    match asStr (getField v "text") with
    | some t => some (InputEvent.clipboardEv t)
    | none => none
  | _ => none

/-- Does `cs` start with the regex fragment `"?type"?\s*:\s*"?VALUE"?`
(case-insensitive) as tested on lines 128, 136 and 139? The leading and
trailing optional quotes contribute nothing to a containment test and are
dropped; the optional quote between `type` and the colon, and between the
colon and the value, is consumed when present. -/
def typeColonValueAt (value : List Char) (cs : List Char) : Bool :=
  match matchCI ("type").data cs with
  | none => false
  | some r1 =>
    let r2 : List Char :=
      match r1 with
      | c :: t => if c = '"' then t else r1
      | [] => r1
    match skipWsChars r2 with
    | ':' :: r4 =>
      let r5 := skipWsChars r4
      let r6 : List Char :=
        match r5 with
        | c :: t => if c = '"' then t else r5
        | [] => r5
      (matchCI value r6).isSome
    | _ => false

/-- Containment test of the `type: VALUE` fragment anywhere in `cs`. -/
def containsTypeColonValue (value : String) : List Char → Bool
  | [] => false
  | c :: t => typeColonValueAt value.data (c :: t) || containsTypeColonValue value t

/-- Match of `/"?NAME"?\s*:\s*(\d+)/i` starting at `cs`: the captured
digits, read as a natural number (`Number` of a digit string). -/
def numFieldAt (name : List Char) (cs : List Char) : Option ℕ :=
  match matchCI name cs with
  | none => none
  | some r1 =>
    let r2 : List Char :=
      match r1 with
      | c :: t => if c = '"' then t else r1
      | [] => r1
    match skipWsChars r2 with
    | ':' :: r4 =>
      match skipWsChars r4 with
      | [] => none
      | d :: r5 =>
        if d.isDigit then some (digitsVal 0 (d :: r5)).1 else none
    | _ => none

/-- Leftmost match of `/"?NAME"?\s*:\s*(\d+)/i` in `cs` (used for the `x`
and `y` coordinates on lines 129–130). -/
def findNumField (name : String) : List Char → Option ℕ
  | [] => none
  | c :: t =>
    match numFieldAt name.data (c :: t) with
    | some n => some n
    | none => findNumField name t

/-- Match of `/"?NAME"?\s*:\s*"([^"]+)"/i` starting at `cs`: a quoted,
non-empty run of non-quote characters. -/
def strFieldAt (name : List Char) (cs : List Char) : Option String :=
  match matchCI name cs with
  | none => none
  | some r1 =>
    let r2 : List Char :=
      match r1 with
      | c :: t => if c = '"' then t else r1
      | [] => r1
    match skipWsChars r2 with
    | ':' :: r4 =>
      match skipWsChars r4 with
      | '"' :: r5 =>
        let content := r5.takeWhile (fun c => ¬ (c = '"'))
        if content ≠ [] ∧ (r5.drop content.length).take 1 = ['"'] then
          some (String.mk content)
        else none
      | _ => none
    | _ => none

/-- Leftmost match of `/"?NAME"?\s*:\s*"([^"]+)"/i` in `cs` (used for the
`text` and `key` fields on lines 137 and 140). -/
def findStrField (name : String) : List Char → Option String
  | [] => none
  | c :: t =>
    match strFieldAt name.data (c :: t) with
    | some s => some s
    | none => findStrField name t

/-- Does this brace-delimited fragment contain one of the three action
type markers of the salvage regex? -/
def actionFragmentHere (inner : List Char) : Bool :=
  containsTypeColonValue "click" inner ||
    containsTypeColonValue "type" inner ||
    containsTypeColonValue "key" inner

/-- Fueled global scan of the salvage regex
`/\{[^}]*?"?type"?\s*:\s*"?(click|type|key)"?[^}]*?\}/gi` (line 125):
a match runs from an opening brace to the first closing brace after it
(the lazy classes exclude closing braces from the body) and its body must
contain one of the three type fragments; matches are collected leftmost
first and do not overlap. Fuel decreases every step; the wrapper supplies
the input length. -/
def findActionMatchesF : ℕ → List Char → List (List Char)
  | 0, _ => []
  | Nat.succ _, [] => []
  | Nat.succ fuel, c :: t =>
    if c = lbrace then
      match upToChar rbrace t with
      | some (inner, after) =>
        if actionFragmentHere inner then
          (lbrace :: (inner ++ [rbrace])) :: findActionMatchesF fuel after
        else findActionMatchesF fuel t
      | none => findActionMatchesF fuel t
    else findActionMatchesF fuel t

/-- All matches of the salvage regex over the raw text. -/
def findActionMatches (cs : List Char) : List (List Char) :=
  findActionMatchesF cs.length cs

/-- The per-match salvage logic (lines 127–143): a click synthesizes
move, button-down, button-up at the parsed coordinates (both must parse);
a type synthesizes one text event; a key synthesizes one key-down. -/
def salvageFromMatch (m : List Char) : List InputEvent :=
  if containsTypeColonValue "click" m then
    match findNumField "x" m, findNumField "y" m with
    | some xn, some yn =>
      [InputEvent.mouseMove (xn : ℚ) (yn : ℚ),
       InputEvent.mouseButtonEv MouseButton.left KeyAction.down
         (some (xn : ℚ)) (some (yn : ℚ)),
       InputEvent.mouseButtonEv MouseButton.left KeyAction.up
         (some (xn : ℚ)) (some (yn : ℚ))]
    | _, _ => []
  else if containsTypeColonValue "type" m then
    match findStrField "text" m with
    | some t => [InputEvent.textEv t]
    | none => []
  else if containsTypeColonValue "key" m then
    match findStrField "key" m with
    | some k => [InputEvent.keyEv k KeyAction.down none]
    | none => []
  else []

/-- A `VisionActionPlan` (`types.ts` lines 145–149); the raw model
response is always retained. -/
structure VisionActionPlanM where
  summary : Option String
  actions : List InputEvent
  raw : String
deriving DecidableEq, Repr

/-- `parseVisionPlan` (lines 118–158): extract a JSON candidate (fenced
block, else brace-to-brace substring, else the trimmed text), parse it;
on success keep the string summary and the schema-validated actions; on
parse failure run the regex salvage pass, succeeding when it recovered at
least one action and rejecting with a parse error otherwise. -/
def parseVisionPlan (text : String) : Except String VisionActionPlanM :=
  let json := (extractJsonFromText text).getD (jsTrim text)
  match jsonParse json with
  | some parsed =>
    let rawActions : List JsonValue :=
      match getField parsed "actions" with
      | some (JsonValue.arr xs) => xs
      | _ => []
    .ok { summary := asStr (getField parsed "summary")
          actions := rawActions.filterMap normalizeInputEvent
          raw := text }
  | none =>
    let fallbackActions :=
      (findActionMatches text.data).foldl (fun acc m => acc ++ salvageFromMatch m) []
    if fallbackActions = [] then .error "Failed to parse vision plan JSON"
    else .ok { summary := some "Fallback parsed actions from non-JSON response"
               actions := fallbackActions
               raw := text }

/-- The fenced-block test input of the spec's parsing property. -/
def happyRaw : String :=
  "```json\n\x7b\"summary\":\"ok\",\"actions\":[\x7b\"type\":\"text\",\"text\":\"hi\"\x7d]\x7d\n```"

/-- An unparsable raw text containing the click fragment of the spec's
salvage property: the brace-to-brace substring spans the junk fragment,
so `JSON.parse` fails and the salvage pass runs. -/
def salvageRaw : String :=
  "I would \x7btry\x7d this: \x7b\"type\":\"click\",\"x\":10,\"y\":20\x7d now"

end VMRC

deriving instance DecidableEq for Except

namespace VMRC

theorem pairwise_replicate_self {α : Type} (R : α → α → Prop) (x : α)
    (h : R x x) (n : ℕ) : List.Pairwise R (List.replicate n x) := by
  induction n with
  | zero => exact List.Pairwise.nil
  | succ n ih =>
    rw [List.replicate_succ]
    exact List.Pairwise.cons
      (fun b hb => by rw [List.eq_of_mem_replicate hb]; exact h) ih

theorem scanl_closes (n : ℕ) :
    List.scanl stepStatus Status.disconnected
      (List.replicate n SessionOp.closeOp) =
      List.replicate (n + 1) Status.disconnected := by
  induction n with
  | zero => rfl
  | succ n ih =>
    rw [List.replicate_succ, List.scanl_cons]
    show Status.disconnected ::
      List.scanl stepStatus Status.disconnected (List.replicate n SessionOp.closeOp) = _
    rw [ih]
    simp [List.replicate_succ]

theorem statusSeq_ok (n : ℕ) :
    statusSeq (SessionOp.startOk :: List.replicate n SessionOp.closeOp) =
      Status.connecting :: Status.connected ::
        List.replicate n Status.disconnected := by
  unfold statusSeq
  rw [List.scanl_cons]
  show Status.connecting ::
    List.scanl stepStatus Status.connected (List.replicate n SessionOp.closeOp) = _
  cases n with
  | zero => rfl
  | succ n =>
    rw [List.replicate_succ, List.scanl_cons]
    show Status.connecting :: Status.connected ::
      List.scanl stepStatus Status.disconnected (List.replicate n SessionOp.closeOp) = _
    rw [scanl_closes, List.replicate_succ]

/-- C1: along every valid session trace, the status changes only along
connecting → connected, connecting → error and connected → disconnected
(self-assignments of the same value are the only repetitions), the status
enters `error` only on the step where `start` fails, and `connected`
never occurs after `disconnected` or `error` has been reached. -/
theorem C1_status_transitions (ops : List SessionOp) (h : ValidTrace ops) :
    List.Chain'
      (fun a b => a = b ∨
        (a = Status.connecting ∧ (b = Status.connected ∨ b = Status.error)) ∨
        (a = Status.connected ∧ (b = Status.disconnected ∨ b = Status.error)))
      (statusSeq ops) ∧
    (∀ k : ℕ, (statusSeq ops)[k + 1]? = some Status.error →
      ops[k]? = some SessionOp.startFail) ∧
    List.Pairwise
      (fun a b => (a = Status.disconnected ∨ a = Status.error) →
        b ≠ Status.connected)
      (statusSeq ops) := by
  rcases h with ⟨n, rfl⟩ | rfl
  · rw [statusSeq_ok]
    refine ⟨?_, ?_, ?_⟩
    · cases n with
      | zero => simp
      | succ n =>
        rw [List.replicate_succ]
        refine List.chain'_cons.2 ⟨Or.inr (Or.inl ⟨rfl, Or.inl rfl⟩), ?_⟩
        refine List.chain'_cons.2 ⟨Or.inr (Or.inr ⟨rfl, Or.inl rfl⟩), ?_⟩
        rw [← List.replicate_succ]
        refine List.chain'_replicate_of_rel _ ?_
        exact Or.inl rfl
    · intro k hk
      exfalso
      have hmem : Status.error ∈ Status.connecting :: Status.connected ::
          List.replicate n Status.disconnected := by
        exact List.getElem?_mem hk
      simp at hmem
    · refine List.Pairwise.cons ?_ (List.Pairwise.cons ?_ ?_)
      · intro b _ hab
        rcases hab with hab | hab <;> cases hab
      · intro b _ hab
        rcases hab with hab | hab <;> cases hab
      · exact pairwise_replicate_self _ _ (fun _ => by decide) n
  · refine ⟨?_, ?_, ?_⟩
    · exact List.chain'_cons.2 ⟨Or.inr (Or.inl ⟨rfl, Or.inr rfl⟩), List.chain'_singleton _⟩
    · intro k hk
      match k, hk with
      | 0, _ => rfl
    · refine List.Pairwise.cons ?_ (List.Pairwise.cons ?_ List.Pairwise.nil)
      · intro b hb hab
        rcases hab with hab | hab <;> cases hab
      · intro b hb
        simp at hb

/-- C1 witness: the trace start-then-close is valid and satisfies the
transition property. -/
theorem C1_witness :
    ValidTrace [SessionOp.startOk, SessionOp.closeOp] ∧
    (List.Chain'
      (fun a b => a = b ∨
        (a = Status.connecting ∧ (b = Status.connected ∨ b = Status.error)) ∨
        (a = Status.connected ∧ (b = Status.disconnected ∨ b = Status.error)))
      (statusSeq [SessionOp.startOk, SessionOp.closeOp]) ∧
    (∀ k : ℕ,
      (statusSeq [SessionOp.startOk, SessionOp.closeOp])[k + 1]? =
        some Status.error →
      [SessionOp.startOk, SessionOp.closeOp][k]? = some SessionOp.startFail) ∧
    List.Pairwise
      (fun a b => (a = Status.disconnected ∨ a = Status.error) →
        b ≠ Status.connected)
      (statusSeq [SessionOp.startOk, SessionOp.closeOp])) :=
  ⟨Or.inl ⟨1, rfl⟩, C1_status_transitions _ (Or.inl ⟨1, rfl⟩)⟩

/-- C2 counterexample: on a 1280-wide viewport, logical x = 640 scales to
32768, not 32767 — 640/1280·65535 = 32767.5 and `Math.round` rounds half
up. -/
theorem C2_counterexample :
    scaleAbsCoord 640 1280 = 32768 ∧ scaleAbsCoord 640 1280 ≠ 32767 := by
  norm_num [scaleAbsCoord, jsRound]

/-- C2 amended: per-axis scaling is clamp(round(logical / dim · 65535),
0, 65535) with JS rounding, applied to each axis independently against
the viewport current at the call, clamped at both ends; the instances are
0 ↦ 0, 640 ↦ 32768 (not 32767) and 1280 ↦ 65535 on a 1280-wide axis. -/
theorem C2_amended (l d : ℚ) (hd : 0 < d) :
    scaleAbsCoord l d = max 0 (min 65535 (jsRound (l / d * 65535))) ∧
    (∀ (s : SpiceState) (x y : ℚ),
      (spiceMouseMove true s x y).2 =
        [SpiceCmd.qmpAbs "x" (scaleAbsCoord x s.viewport.width),
         SpiceCmd.qmpAbs "y" (scaleAbsCoord y s.viewport.height)]) ∧
    0 ≤ scaleAbsCoord l d ∧ scaleAbsCoord l d ≤ 65535 ∧
    (l ≤ 0 → scaleAbsCoord l d = 0) ∧
    (d ≤ l → scaleAbsCoord l d = 65535) ∧
    scaleAbsCoord 0 1280 = 0 ∧ scaleAbsCoord 640 1280 = 32768 ∧
    scaleAbsCoord 1280 1280 = 65535 := by
  refine ⟨rfl, ?_, ?_, ?_, ?_, ?_, ?_, ?_, ?_⟩
  · intro s x y
    simp [spiceMouseMove]
  · exact le_max_left 0 _
  · exact max_le (by norm_num) (min_le_left _ _)
  · intro hl
    have hq : l / d * 65535 ≤ 0 := by
      have h1 : l / d ≤ 0 := div_nonpos_of_nonpos_of_nonneg hl hd.le
      nlinarith
    have hr : jsRound (l / d * 65535) ≤ 0 := by
      have : (⌊l / d * 65535 + 1/2⌋ : ℤ) ≤ ⌊(0 : ℚ) + 1/2⌋ :=
        Int.floor_le_floor (by linarith)
      simpa [jsRound] using le_trans this (by norm_num)
    unfold scaleAbsCoord
    omega
  · intro hl
    have h1 : (1 : ℚ) ≤ l / d := (one_le_div hd).mpr hl
    have hq : (65535 : ℚ) ≤ l / d * 65535 := by nlinarith
    have hr : (65535 : ℤ) ≤ jsRound (l / d * 65535) := by
      unfold jsRound
      refine Int.le_floor.mpr ?_
      push_cast
      linarith
    unfold scaleAbsCoord
    omega
  · norm_num [scaleAbsCoord, jsRound]
  · norm_num [scaleAbsCoord, jsRound]
  · norm_num [scaleAbsCoord, jsRound]

/-- C2 amended witness at logical 100 on a 1280-wide axis. -/
theorem C2_amended_witness :
    (0 : ℚ) < 1280 ∧
    (scaleAbsCoord 100 1280 =
        max 0 (min 65535 (jsRound ((100 : ℚ) / 1280 * 65535))) ∧
      (∀ (s : SpiceState) (x y : ℚ),
        (spiceMouseMove true s x y).2 =
          [SpiceCmd.qmpAbs "x" (scaleAbsCoord x s.viewport.width),
           SpiceCmd.qmpAbs "y" (scaleAbsCoord y s.viewport.height)]) ∧
      0 ≤ scaleAbsCoord 100 1280 ∧ scaleAbsCoord 100 1280 ≤ 65535 ∧
      ((100 : ℚ) ≤ 0 → scaleAbsCoord 100 1280 = 0) ∧
      ((1280 : ℚ) ≤ 100 → scaleAbsCoord 100 1280 = 65535) ∧
      scaleAbsCoord 0 1280 = 0 ∧ scaleAbsCoord 640 1280 = 32768 ∧
      scaleAbsCoord 1280 1280 = 65535) :=
  ⟨by norm_num, C2_amended 100 1280 (by norm_num)⟩

/-- C3 counterexample: two `close()` calls on a connected session emit the
disconnected status event twice, not once. -/
theorem C3_counterexample :
    (closeTwice ⟨Status.connected, true, ⟨1280, 720⟩⟩ (.ok ()) (.ok ())).map
        (fun r => r.2.count (SessionEvent.statusEv Status.disconnected)) =
      .ok 2 := by decide

/-- C3 amended: calling `close()` twice is safe — the second call does not
raise and the frame timer is cleared only by the first call — but each
call emits one disconnected status event, so two calls emit it twice. -/
theorem C3_amended (s : EngineState) :
    closeSession s (.ok ()) =
      .ok (⟨Status.disconnected, false, s.viewport⟩,
        [SessionEvent.statusEv Status.disconnected], s.timerActive) ∧
    closeSession (⟨Status.disconnected, false, s.viewport⟩ : EngineState) (.ok ()) =
      .ok (⟨Status.disconnected, false, s.viewport⟩,
        [SessionEvent.statusEv Status.disconnected], false) ∧
    closeTwice s (.ok ()) (.ok ()) =
      .ok (⟨Status.disconnected, false, s.viewport⟩,
        [SessionEvent.statusEv Status.disconnected,
         SessionEvent.statusEv Status.disconnected]) := by
  refine ⟨rfl, rfl, rfl⟩

/-- C4: on a read-only session, `sendInput` and `setClipboard` resolve
successfully for every event, text and driver behaviour, make no driver
call at all, and therefore leave any driver state unchanged. -/
theorem C4_read_only (e : InputEvent) (t : String) (dr : Except String Unit) :
    sessionSendInput true dr e = ([], .ok ()) ∧
    sessionSetClipboard true dr t = ([], .ok ()) ∧
    (∀ {δ : Type} (step : δ → DriverCall → δ) (d : δ),
      ((sessionSendInput true dr e).1.foldl step d = d ∧
       (sessionSetClipboard true dr t).1.foldl step d = d)) := by
  refine ⟨rfl, rfl, fun step d => ⟨rfl, rfl⟩⟩

/-- C5 counterexample: starting a session with the recognised but
unimplemented backend kind `rdp` does not fail — it gets the mock driver,
reaches `connected`, emits the connected status event and starts the
frame loop. -/
theorem C5_counterexample :
    startSessionModel {} "rdp" (some "winbox") ⟨1280, 720⟩ true =
      .ok ⟨Status.connected, [Status.connected], true, none⟩ := by decide

/-- C5 amended: only a backend kind outside the recognised set reaches the
unsupported driver; for such a kind the start fails before the frame loop
starts, the only status event is `error`, the rethrown error names the
kind, and every operation on the unsupported driver fails immediately
with the "not implemented" message naming the kind. -/
theorem C5_amended (backend : String) (h : knownBackend backend = false)
    (opts : FactoryOpts) (label : Option String) (viewport : ViewportQ)
    (spiceOk : Bool) :
    createDriver opts backend label viewport = .ok (.unsupportedDriver backend) ∧
    startSessionModel opts backend label viewport spiceOk =
      .ok ⟨Status.error, [Status.error], false,
        some ("Backend " ++ backend ++ " not implemented yet")⟩ ∧
    (∀ op : DriverOp, unsupportedDriverRun backend op =
      .error ("Backend " ++ backend ++ " not implemented yet")) := by
  refine ⟨?_, ?_, fun op => rfl⟩
  · simp [createDriver, h]
  · simp [startSessionModel, createDriver, h, connectResult, unsupportedMsg]

/-- C5 amended witness at the unrecognised backend kind "sdl". -/
theorem C5_amended_witness :
    knownBackend "sdl" = false ∧
    (createDriver {} "sdl" none ⟨1280, 720⟩ = .ok (.unsupportedDriver "sdl") ∧
      startSessionModel {} "sdl" none ⟨1280, 720⟩ true =
        .ok ⟨Status.error, [Status.error], false,
          some ("Backend " ++ "sdl" ++ " not implemented yet")⟩ ∧
      (∀ op : DriverOp, unsupportedDriverRun "sdl" op =
        .error ("Backend " ++ "sdl" ++ " not implemented yet"))) :=
  ⟨by decide, C5_amended "sdl" (by decide) {} none ⟨1280, 720⟩ true⟩

theorem loopTick_skeleton (s : EngineState) (c : Except String ViewportQ) :
    (loopTick s c).1.status = s.status ∧
    (loopTick s c).1.timerActive = s.timerActive ∧
    ∀ st : Status, SessionEvent.statusEv st ∉ (loopTick s c).2 := by
  cases c with
  | error e => simp [loopTick, snapshotStep]
  | ok f =>
    by_cases hv : f.width ≠ s.viewport.width ∨ f.height ≠ s.viewport.height <;>
      simp [loopTick, snapshotStep, hv]

/-- C6: a failed capture inside a frame-loop tick is swallowed — the tick
returns normally with only a warning and the state untouched — and over
any sequence of tick outcomes the session status and the timer flag never
change and no status event is emitted from the loop. -/
theorem C6_capture_failures :
    (∀ (s : EngineState) (e : String),
      loopTick s (.error e) = (s, [SessionEvent.warnLog])) ∧
    (∀ (s : EngineState) (captures : List (Except String ViewportQ)),
      (runTicks s captures).1.status = s.status ∧
      (runTicks s captures).1.timerActive = s.timerActive ∧
      ∀ st : Status, SessionEvent.statusEv st ∉ (runTicks s captures).2) := by
  constructor
  · intro s e
    rfl
  · intro s captures
    induction captures generalizing s with
    | nil => simp [runTicks]
    | cons c rest ih =>
      obtain ⟨h1, h2, h3⟩ := loopTick_skeleton s c
      obtain ⟨i1, i2, i3⟩ := ih (loopTick s c).1
      refine ⟨by rw [runTicks]; simpa [i1] using h1,
              by rw [runTicks]; simpa [i2] using h2, ?_⟩
      intro st hmem
      rw [runTicks] at hmem
      simp at hmem
      rcases hmem with hmem | hmem
      · exact h3 st hmem
      · exact i3 st hmem

/-- C7: merging a word row into an existing line appends its text
single-space separated (modulo the trailing trim the code applies) and
replaces the bounding box by the union of the two boxes; on the two
concrete word rows "Hello" (0,0,50,20) and "World" (55,0,50,20) the
aggregated line is "Hello World" with box (0,0,105,20). -/
theorem C7_line_merge :
    (∀ (existing : OCRLineM) (r : TsvRow),
      (mergeWordRow existing r).text = jsTrim (existing.text ++ " " ++ r.text) ∧
      (mergeWordRow existing r).bbox.x = min existing.bbox.x r.left ∧
      (mergeWordRow existing r).bbox.y = min existing.bbox.y r.top ∧
      (mergeWordRow existing r).bbox.x + (mergeWordRow existing r).bbox.width =
        max (existing.bbox.x + existing.bbox.width) (r.left + r.width) ∧
      (mergeWordRow existing r).bbox.y + (mergeWordRow existing r).bbox.height =
        max (existing.bbox.y + existing.bbox.height) (r.top + r.height)) ∧
    (processRows
        [⟨5, 1, 1, 1, 1, 0, 0, 50, 20, none, "Hello"⟩,
         ⟨5, 1, 1, 1, 2, 55, 0, 50, 20, none, "World"⟩]).lineMap =
      [((1, 1, 1),
        { text := "Hello World", bbox := ⟨0, 0, 105, 20⟩, confidence := none,
          block := 1, paragraph := 1, lineNum := 1 })] := by
  constructor
  · intro existing r
    refine ⟨rfl, rfl, rfl, ?_, ?_⟩ <;> simp [mergeWordRow]
  · decide

/-- C8: over any sequence of merged word rows with defined confidences,
the line confidence is the pairwise running average — fold each new
confidence in by averaging with the current value — which differs from
the true mean: seeding with 100 and merging 50 then 0 yields 37.5, while
the mean of the three is 50. -/
theorem C8_running_average (existing : OCRLineM) (c0 : ℚ)
    (rows : List TsvRow) (cs : List ℚ)
    (h0 : existing.confidence = some c0)
    (h1 : rows.map TsvRow.confidence = cs.map some) :
    (rows.foldl mergeWordRow existing).confidence = some (runningAvg c0 cs) ∧
    runningAvg 100 [50, 0] = 75 / 2 ∧
    ((100 : ℚ) + 50 + 0) / 3 = 50 ∧ ((75 : ℚ) / 2) ≠ 50 := by
  refine ⟨?_, by norm_num [runningAvg], by norm_num, by norm_num⟩
  induction rows generalizing existing c0 cs with
  | nil =>
    cases cs with
    | nil => simpa [runningAvg] using h0
    | cons c cs' => simp at h1
  | cons r rs ih =>
    cases cs with
    | nil => simp at h1
    | cons c cs' =>
      simp at h1
      obtain ⟨hc, hrest⟩ := h1
      have hm : (mergeWordRow existing r).confidence = some ((c0 + c) / 2) := by
        simp [mergeWordRow, h0, hc]
      rw [List.foldl_cons]
      have := ih (mergeWordRow existing r) ((c0 + c) / 2) cs' hm hrest
      simpa [runningAvg] using this

/-- C8 witness: a line seeded at confidence 100 merged with word rows of
confidence 50 and 0. -/
theorem C8_witness :
    ({ text := "w", bbox := ⟨0, 0, 10, 10⟩, confidence := some 100,
       block := 1, paragraph := 1, lineNum := 1 } : OCRLineM).confidence =
      some 100 ∧
    ([(⟨5, 1, 1, 1, 2, 12, 0, 10, 10, some 50, "a"⟩ : TsvRow),
      ⟨5, 1, 1, 1, 3, 24, 0, 10, 10, some 0, "b"⟩].map TsvRow.confidence =
      [(50 : ℚ), 0].map some) ∧
    (([(⟨5, 1, 1, 1, 2, 12, 0, 10, 10, some 50, "a"⟩ : TsvRow),
       ⟨5, 1, 1, 1, 3, 24, 0, 10, 10, some 0, "b"⟩].foldl mergeWordRow
        { text := "w", bbox := ⟨0, 0, 10, 10⟩, confidence := some 100,
          block := 1, paragraph := 1, lineNum := 1 }).confidence =
      some (runningAvg 100 [50, 0]) ∧
    runningAvg 100 [50, 0] = 75 / 2 ∧
    ((100 : ℚ) + 50 + 0) / 3 = 50 ∧ ((75 : ℚ) / 2) ≠ 50) :=
  ⟨rfl, rfl, C8_running_average _ 100 _ [50, 0] rfl rfl⟩

/-- C9: the fenced JSON response yields summary "ok" and exactly the one
text action "hi"; the unparsable raw text containing the click fragment
is salvaged into exactly move(10,20), left-down(10,20), left-up(10,20). -/
theorem C9_vision_parsing :
    parseVisionPlan happyRaw =
      .ok { summary := some "ok", actions := [InputEvent.textEv "hi"],
            raw := happyRaw } ∧
    parseVisionPlan salvageRaw =
      .ok { summary := some "Fallback parsed actions from non-JSON response",
            actions :=
              [InputEvent.mouseMove 10 20,
               InputEvent.mouseButtonEv MouseButton.left KeyAction.down
                 (some 10) (some 20),
               InputEvent.mouseButtonEv MouseButton.left KeyAction.up
                 (some 10) (some 20)],
            raw := salvageRaw } := by
  constructor <;> decide

/-- C10: a mouse-button event carrying both coordinates first performs
the mouse-move — the issued commands start with exactly the move commands
— and afterwards the driver's retained cursor state equals (x, y), in
both absolute and relative addressing modes. -/
theorem C10_button_first_moves (absoluteMouse : Bool) (s : SpiceState)
    (b : MouseButton) (a : KeyAction) (x y : ℚ) :
    (spiceMouseButton absoluteMouse s b a (some x) (some y)).1.mouseX = x ∧
    (spiceMouseButton absoluteMouse s b a (some x) (some y)).1.mouseY = y ∧
    ∃ rest, (spiceMouseButton absoluteMouse s b a (some x) (some y)).2 =
      (spiceMouseMove absoluteMouse s x y).2 ++ rest := by
  cases absoluteMouse <;> simp [spiceMouseButton, spiceMouseMove]

end VMRC
